import Mathlib

/-!
Verification of the MCP server demo (calculator, file_operations and
system_info tools behind a tools/call dispatcher).

The development shallowly embeds the TypeScript sources:

- a JSON value model (JavaScript numbers are modelled as rationals, with a
  separate NaN constructor; undefined is modelled as the absence of an
  optional value);
- BaseTool.validateArguments (base-tool.ts);
- CalculatorTool.execute (calculator.ts);
- FileOperationsTool.validatePath and FileOperationsTool.execute
  (file-operations.ts), over an abstract filesystem that also records the
  trace of filesystem calls actually performed;
- SystemInfoTool.execute (system-info.ts), over an abstract host;
- the registry, the tools/call handler, the resources/read handler and the
  GoogleADKIntegration usage recorder (index.ts, google-adk.ts).

A handler that throws (a rejected handler promise, surfaced by the SDK as a
protocol error response rather than a result) is modelled as Except.error;
a handler that returns is modelled as Except.ok.
-/

/-- JSON-like runtime values. JavaScript numbers are modelled as rationals
(native doubles are abstracted to exact arithmetic); NaN is a separate
constructor; undefined is represented by Option.none wherever a value can be
absent. -/
inductive Json where
  | null
  | bool (b : Bool)
  | num (q : Rat)
  | nan
  | str (s : String)
  | arr (elems : List Json)
  | obj (fields : List (String × Json))

/-- The JavaScript typeof operator on our value model. -/
def jsTypeof : Json → String
  | .null => "object"
  | .bool _ => "boolean"
  | .num _ => "number"
  | .nan => "number"
  | .str _ => "string"
  | .arr _ => "object"
  | .obj _ => "object"

/-- JavaScript truthiness of a defined value. -/
def jsTruthy : Json → Bool
  | .null => false
  | .bool b => b
  | .num q => if q = 0 then false else true
  | .nan => false
  | .str s => if s = "" then false else true
  | .arr _ => true
  | .obj _ => true

/-- Truthiness of a possibly-undefined value (undefined is falsy). -/
def jsTruthyOpt : Option Json → Bool
  | none => false
  | some v => jsTruthy v

/-- First-match association lookup used for object fields, schema
properties and the tool registry. -/
def assocLookup {α : Type} (l : List (String × α)) (k : String) : Option α :=
  match l with
  | [] => none
  | p :: rest => if p.1 = k then some p.2 else assocLookup rest k

/-- JavaScript property access obj[k] (and destructuring): yields
undefined (none) when the key is absent or the value is not an object.
Numeric-string indexing of arrays is not modelled (no code under
verification uses it). -/
def jsGet (a : Json) (k : String) : Option Json :=
  match a with
  | .obj fields => assocLookup fields k
  | _ => none

/-- Canonical-decimal digit parse of a string, for array index membership. -/
def parseIndex (s : String) : Option Nat :=
  let ds := s.toList
  if ds.isEmpty then none
  else if ds.all (fun c => decide ('0' ≤ c) && decide (c ≤ '9')) then
    some (ds.foldl (fun n c => n * 10 + (c.toNat - 48)) 0)
  else none

/-- The JavaScript in operator: key membership for objects; index or
length membership for arrays; false otherwise. -/
def jsHasField (a : Json) (f : String) : Bool :=
  match a with
  | .obj fields => (assocLookup fields f).isSome
  | .arr xs =>
    if f = "length" then true
    else match parseIndex f with
      | some i => decide (i < xs.length)
      | none => false
  | _ => false

/-- Object.entries: own enumerable properties of an object, index-value
pairs of an array, empty otherwise. -/
def jsEntries : Json → List (String × Json)
  | .obj fields => fields
  | .arr xs => xs.enum.map (fun p => (toString p.1, p.2))
  | _ => []

/-- Strict equality of a possibly-undefined value with a number literal
(the b === 0 test; NaN === q is false). -/
def jsIsNum (v : Option Json) (q : Rat) : Bool :=
  match v with
  | some (.num x) => decide (x = q)
  | _ => false

/-- Strict equality of a possibly-undefined value with a string literal
(the switch/case and detail === full tests). -/
def jsIsStr (v : Option Json) (s : String) : Bool :=
  match v with
  | some (.str t) => decide (t = s)
  | _ => false

/-- Decimal-style rendering of a rational; stands in for the JavaScript
number-to-string conversion, which is only used opaquely in messages. -/
def ratToString (q : Rat) : String :=
  if q.den = 1 then toString q.num else toString q.num ++ "/" ++ toString q.den

/-- JavaScript template-literal stringification of a possibly-undefined
value. Array and object rendering are abbreviated; no verified code path
stringifies them. -/
def jsToString : Option Json → String
  | none => "undefined"
  | some .null => "null"
  | some (.bool true) => "true"
  | some (.bool false) => "false"
  | some (.num q) => ratToString q
  | some .nan => "NaN"
  | some (.str s) => s
  | some (.arr _) => ""
  | some (.obj _) => "[object Object]"

/-- Escape of quote and backslash characters inside a JSON string literal. -/
def jsEscape (s : String) : String :=
  String.join (s.toList.map (fun c =>
    if c = '\"' then "\\\"" else if c = '\\' then "\\\\" else String.singleton c))

mutual
/-- JSON.stringify on the value model (whitespace/indentation abstracted;
stringify renders NaN as null). -/
def jsonStringify : Json → String
  | .null => "null"
  | .bool true => "true"
  | .bool false => "false"
  | .num q => ratToString q
  | .nan => "null"
  | .str s => "\"" ++ jsEscape s ++ "\""
  | .arr xs => "[" ++ stringifyList xs ++ "]"
  | .obj fields => "\x7b" ++ stringifyFields fields ++ "\x7d"

/-- Comma-joined serialization of array elements. -/
def stringifyList : List Json → String
  | [] => ""
  | [x] => jsonStringify x
  | x :: y :: xs => jsonStringify x ++ "," ++ stringifyList (y :: xs)

/-- Comma-joined serialization of object fields. -/
def stringifyFields : List (String × Json) → String
  | [] => ""
  | [(k, v)] => "\"" ++ jsEscape k ++ "\":" ++ jsonStringify v
  | (k, v) :: y :: xs =>
    "\"" ++ jsEscape k ++ "\":" ++ jsonStringify v ++ "," ++ stringifyFields (y :: xs)
end

/-- Substring containment, the JavaScript String.prototype.includes. -/
def strIncludes (s pat : String) : Bool :=
  s.toList.tails.any (fun t => pat.toList.isPrefixOf t)

/-- The JavaScript String.prototype.startsWith. -/
def jsStartsWith (s pat : String) : Bool :=
  pat.toList.isPrefixOf s.toList

/-- Helper building the optional field list of a JSON object literal: an
undefined value contributes no field (JSON.stringify drops undefined
fields, so presence of the key and a defined value coincide). -/
def optField (k : String) (v : Option Json) : List (String × Json) :=
  match v with
  | some j => [(k, j)]
  | none => []

/-- Declared schema of one property: type, optional enum, description
(base-tool.ts, ToolDefinition.inputSchema.properties values). -/
structure PropSchema where
  type : String
  enum : Option (List String)
  description : String
deriving DecidableEq

/-- Declared input schema of a tool (type: object is implicit). -/
structure InputSchema where
  properties : List (String × PropSchema)
  required : List String
deriving DecidableEq

/-- Result value returned by a tool execution (base-tool.ts ToolResult). -/
structure ToolResult where
  success : Bool
  data : Option Json
  error : Option String

/-- JSON view of a ToolResult as produced by JSON.stringify (fields that
are undefined are dropped). -/
def ToolResult.toJson (r : ToolResult) : Json :=
  Json.obj ([("success", Json.bool r.success)]
    ++ (match r.data with | some d => [("data", d)] | none => [])
    ++ (match r.error with | some e => [("error", Json.str e)] | none => []))

/-- Required-field loop of BaseTool.validateArguments. -/
def checkRequired (req : List String) (a : Json) : Except String Unit :=
  match req with
  | [] => .ok ()
  | f :: rest =>
    if jsHasField a f then checkRequired rest a
    else .error ("Missing required argument: " ++ f)

/-- Per-entry type check of BaseTool.validateArguments: only declared
number/string/boolean types are enforced; keys absent from the property
mapping pass through. -/
def checkEntry (props : List (String × PropSchema)) (k : String) (v : Json) :
    Except String Unit :=
  match assocLookup props k with
  | none => .ok ()
  | some ps =>
    if ps.type = "number" ∧ jsTypeof v ≠ "number" then
      .error ("Argument \"" ++ k ++ "\" must be a number")
    else if ps.type = "string" ∧ jsTypeof v ≠ "string" then
      .error ("Argument \"" ++ k ++ "\" must be a string")
    else if ps.type = "boolean" ∧ jsTypeof v ≠ "boolean" then
      .error ("Argument \"" ++ k ++ "\" must be a boolean")
    else .ok ()

/-- Entry loop of BaseTool.validateArguments over Object.entries(args). -/
def checkTypes (props : List (String × PropSchema)) :
    List (String × Json) → Except String Unit
  | [] => .ok ()
  | (k, v) :: rest =>
    match checkEntry props k v with
    | .error m => .error m
    | .ok () => checkTypes props rest

/-- BaseTool.validateArguments: reject absent/non-object arguments, then
missing required names, then type-mismatched declared primitive types. -/
def validateArguments (schema : InputSchema) (args : Option Json) :
    Except String Unit :=
  match args with
  | none => .error "Arguments must be an object"
  | some a =>
    if jsTruthy a = false ∨ jsTypeof a ≠ "object" then
      .error "Arguments must be an object"
    else
      match checkRequired schema.required a with
      | .error m => .error m
      | .ok () => checkTypes schema.properties (jsEntries a)

namespace CalculatorTool

/-- Declared input schema of the calculator tool (calculator.ts). -/
def inputSchema : InputSchema :=
  { properties := [
      ("operation",
        { type := "string",
          enum := some ["add", "subtract", "multiply", "divide"],
          description := "The mathematical operation to perform" }),
      ("a", { type := "number", enum := none, description := "First number" }),
      ("b", { type := "number", enum := none, description := "Second number" })],
    required := ["operation", "a", "b"] }

/-- Success payload of the calculator: echoes the operation, the two
operands and the result (undefined operands are dropped, as stringify
would). -/
def calcSuccess (operation a b : Option Json) (result : Json) : ToolResult :=
  { success := true,
    data := some (Json.obj (optField "operation" operation
      ++ [("operands", Json.obj (optField "a" a ++ optField "b" b)),
          ("result", result)])),
    error := none }

/-- JavaScript addition of the two destructured operands. Numeric
operands add exactly; a string operand concatenates; other combinations
yield NaN (numeric coercion of non-numbers is not modelled; through the
dispatcher both operands are always numbers, by validation). -/
def jsAdd : Option Json → Option Json → Json
  | some (.num p), some (.num q) => .num (p + q)
  | some (.str s), t => .str (s ++ jsToString t)
  | s, some (.str t) => .str (jsToString s ++ t)
  | _, _ => .nan

/-- JavaScript subtraction (non-numeric operands abstracted to NaN). -/
def jsSub : Option Json → Option Json → Json
  | some (.num p), some (.num q) => .num (p - q)
  | _, _ => .nan

/-- JavaScript multiplication (non-numeric operands abstracted to NaN). -/
def jsMul : Option Json → Option Json → Json
  | some (.num p), some (.num q) => .num (p * q)
  | _, _ => .nan

/-- JavaScript division; the zero-divisor case is unreachable here because
execute guards b === 0 first (non-numeric operands abstracted to NaN). -/
def jsDiv : Option Json → Option Json → Json
  | some (.num p), some (.num q) => if q = 0 then .nan else .num (p / q)
  | _, _ => .nan

/-- CalculatorTool.execute: switch on the operation, guard division by
zero, throw on an unknown operation, echo operands in the success
payload. Except.error models a thrown Error. -/
def execute (args : Json) : Except String ToolResult :=
  let operation := jsGet args "operation"
  let a := jsGet args "a"
  let b := jsGet args "b"
  if jsIsStr operation "add" then
    .ok (calcSuccess operation a b (jsAdd a b))
  else if jsIsStr operation "subtract" then
    .ok (calcSuccess operation a b (jsSub a b))
  else if jsIsStr operation "multiply" then
    .ok (calcSuccess operation a b (jsMul a b))
  else if jsIsStr operation "divide" then
    if jsIsNum b 0 then .error "Division by zero is not allowed"
    else .ok (calcSuccess operation a b (jsDiv a b))
  else .error ("Unknown operation: " ++ jsToString operation)

end CalculatorTool

/-- Model and clock speed of one logical CPU core. -/
structure CpuInfo where
  model : String
  speed : Rat
deriving DecidableEq

/-- Abstract host interrogated by the system_info tool: platform and
architecture identifiers, uptime in (fractional) seconds, total and free
memory in bytes, and the reported CPU cores. -/
structure HostInfo where
  platform : String
  arch : String
  uptime : Rat
  totalmem : Rat
  freemem : Rat
  cpus : List CpuInfo

/-- Math.round: round half away from zero toward positive infinity. -/
def jsRound (q : Rat) : Int := Rat.floor (q + 1/2)

namespace SystemInfoTool

/-- Declared input schema of the system_info tool (system-info.ts). -/
def inputSchema : InputSchema :=
  { properties := [
      ("detail",
        { type := "string",
          enum := some ["basic", "full"],
          description := "Level of detail (basic or full)" })],
    required := [] }

/-- The basicInfo object of SystemInfoTool.execute: platform,
architecture, floored uptime, and memory totals in rounded megabytes. -/
def basicInfo (h : HostInfo) : Json :=
  Json.obj [
    ("platform", Json.str h.platform),
    ("architecture", Json.str h.arch),
    ("uptime", Json.num (Rat.floor h.uptime : Int)),
    ("memory", Json.obj [
      ("total", Json.num (jsRound (h.totalmem / 1024 / 1024) : Int)),
      ("free", Json.num (jsRound (h.freemem / 1024 / 1024) : Int)),
      ("used", Json.num (jsRound ((h.totalmem - h.freemem) / 1024 / 1024) : Int))])]

/-- CPU block of the full payload; when the core list is empty the
optional-chained model and speed are undefined and their fields are
dropped (as JSON.stringify would). -/
def cpusInfo (h : HostInfo) : Json :=
  Json.obj ([("count", Json.num (h.cpus.length : Int))]
    ++ (match h.cpus.head? with
        | some c => [("model", Json.str c.model), ("speed", Json.num c.speed)]
        | none => []))

/-- SystemInfoTool.execute: detail defaults to basic when undefined; the
full payload extends the basic one with the CPU block. This function
never throws, so it returns a plain ToolResult. -/
def execute (h : HostInfo) (args : Json) : ToolResult :=
  let detail := (jsGet args "detail").getD (Json.str "basic")
  if jsIsStr (some detail) "full" then
    { success := true,
      data := some (Json.obj [
        ("platform", Json.str h.platform),
        ("architecture", Json.str h.arch),
        ("uptime", Json.num (Rat.floor h.uptime : Int)),
        ("memory", Json.obj [
          ("total", Json.num (jsRound (h.totalmem / 1024 / 1024) : Int)),
          ("free", Json.num (jsRound (h.freemem / 1024 / 1024) : Int)),
          ("used", Json.num (jsRound ((h.totalmem - h.freemem) / 1024 / 1024) : Int))]),
        ("cpus", cpusInfo h)]),
      error := none }
  else
    { success := true, data := some (basicInfo h), error := none }

end SystemInfoTool

/-- Metadata of a stat result: kind, byte size, birth and modification
times (dates are treated as opaque strings). -/
structure FileStat where
  isDir : Bool
  size : Nat
  birthtime : String
  mtime : String
deriving DecidableEq

/-- A Node I/O failure: optional error code plus message. -/
structure IOErr where
  code : Option String
  message : String
deriving DecidableEq

/-- Abstract filesystem behaviour: the outcome of each fs/promises call
the tool can make, as a function of the (resolved) path. -/
structure Fs where
  readFileF : String → Except IOErr String
  writeFileF : String → String → Except IOErr Unit
  readdirF : String → Except IOErr (List String)
  statF : String → Except IOErr FileStat

/-- One performed filesystem call; executions return the trace of calls
actually made, so that absence of filesystem access is expressible. -/
inductive FsOp where
  | readFileOp (path : String)
  | writeFileOp (path content : String)
  | readdirOp (path : String)
  | statOp (path : String)
deriving DecidableEq

/-- Node path.join, abstracted to separator concatenation; resolved paths
are only ever passed opaquely to the filesystem. -/
def joinPath (a b : String) : String := a ++ "/" ++ b

/-- Error raised inside the try block of FileOperationsTool.execute:
either a filesystem rejection carrying an IOErr, or a plain thrown Error
carrying only a message. -/
inductive TryErr where
  | io (e : IOErr)
  | js (msg : String)

namespace FileOperationsTool

/-- Declared input schema of the file_operations tool
(file-operations.ts). -/
def inputSchema : InputSchema :=
  { properties := [
      ("operation",
        { type := "string",
          enum := some ["read", "write", "list", "info"],
          description := "The file operation to perform" }),
      ("path",
        { type := "string",
          enum := none,
          description := "File or directory path (relative to workspace)" }),
      ("content",
        { type := "string",
          enum := none,
          description := "Content to write (required for write operation)" })],
    required := ["operation", "path"] }

/-- FileOperationsTool.validatePath: reject any path containing a
parent-directory segment, then any absolute path, before resolving
against the workspace root. -/
def validatePath (workspaceRoot path : String) : Except String String :=
  if strIncludes path ".." then .error "Path traversal (..) is not allowed"
  else if jsStartsWith path "/" then .error "Absolute paths are not allowed"
  else .ok (joinPath workspaceRoot path)

/-- Directory-listing loop: stat every entry under the resolved path,
recording each stat call; the first failing stat aborts (Promise.all
rejects with its first rejection, modelled in entry order). -/
def statEntries (fs : Fs) (safePath : String) :
    List String → Except TryErr (List Json) × List FsOp
  | [] => (.ok [], [])
  | name :: rest =>
    let entryPath := joinPath safePath name
    match fs.statF entryPath with
    | .error e => (.error (.io e), [.statOp entryPath])
    | .ok st =>
      match statEntries fs safePath rest with
      | (.error te, ops) => (.error te, .statOp entryPath :: ops)
      | (.ok js, ops) =>
        (.ok (Json.obj [
          ("name", Json.str name),
          ("type", Json.str (if st.isDir then "directory" else "file")),
          ("size", Json.num (st.size : Int))] :: js),
         .statOp entryPath :: ops)

/-- Body of the try block of FileOperationsTool.execute: the four
operations, plus the thrown Errors for missing write content and an
unknown operation. -/
def tryBody (fs : Fs) (operation : Option Json) (path safePath : String)
    (content : Option Json) : Except TryErr ToolResult × List FsOp :=
  if jsIsStr operation "read" then
    match fs.readFileF safePath with
    | .error e => (.error (.io e), [.readFileOp safePath])
    | .ok fileContent =>
      (.ok { success := true,
             data := some (Json.obj [
               ("path", Json.str path),
               ("content", Json.str fileContent),
               ("size", Json.num (fileContent.length : Int))]),
             error := none },
       [.readFileOp safePath])
  else if jsIsStr operation "write" then
    if jsTruthyOpt content = false then
      (.error (.js "Content is required for write operation"), [])
    else
      match content with
      | some (.str c) =>
        match fs.writeFileF safePath c with
        | .error e => (.error (.io e), [.writeFileOp safePath c])
        | .ok () =>
          (.ok { success := true,
                 data := some (Json.obj [
                   ("path", Json.str path),
                   ("message", Json.str "File written successfully")]),
                 error := none },
           [.writeFileOp safePath c])
      | _ =>
        -- Truthy non-string content would make writeFile throw a
        -- TypeError; unreachable through the dispatcher, whose validation
        -- forces a supplied content to be a string.
        (.error (.js "The content argument must be of type string"), [])
  else if jsIsStr operation "list" then
    match fs.readdirF safePath with
    | .error e => (.error (.io e), [.readdirOp safePath])
    | .ok entries =>
      match statEntries fs safePath entries with
      | (.error te, ops) => (.error te, .readdirOp safePath :: ops)
      | (.ok fileList, ops) =>
        (.ok { success := true,
               data := some (Json.obj [
                 ("path", Json.str path),
                 ("entries", Json.arr fileList)]),
               error := none },
         .readdirOp safePath :: ops)
  else if jsIsStr operation "info" then
    match fs.statF safePath with
    | .error e => (.error (.io e), [.statOp safePath])
    | .ok st =>
      (.ok { success := true,
             data := some (Json.obj [
               ("path", Json.str path),
               ("type", Json.str (if st.isDir then "directory" else "file")),
               ("size", Json.num (st.size : Int)),
               ("created", Json.str st.birthtime),
               ("modified", Json.str st.mtime)]),
             error := none },
       [.statOp safePath])
  else (.error (.js ("Unknown operation: " ++ jsToString operation)), [])

/-- FileOperationsTool.execute: destructure the arguments, validate the
path before the try block (its throw is not caught locally), run the
operation, and in the catch block rewrite an ENOENT failure to a
not-found message carrying the original path while rethrowing every
other Error unchanged. -/
def execute (fs : Fs) (workspaceRoot : String) (args : Json) :
    Except String ToolResult × List FsOp :=
  let operation := jsGet args "operation"
  let content := jsGet args "content"
  match jsGet args "path" with
  | some (.str p) =>
    match validatePath workspaceRoot p with
    | .error m => (.error m, [])
    | .ok safePath =>
      match tryBody fs operation p safePath content with
      | (.ok r, ops) => (.ok r, ops)
      | (.error (.io e), ops) =>
        (.error (if e.code = some "ENOENT"
                 then "File or directory not found: " ++ p
                 else e.message), ops)
      | (.error (.js m), ops) => (.error m, ops)
  | _ =>
    -- A non-string path makes path.includes throw a TypeError before any
    -- filesystem access; unreachable through the dispatcher, whose
    -- validation forces the required path to be a string.
    (.error "path.includes is not a function", [])

end FileOperationsTool

/-- The three registered tools of the server (index.ts registerTools). -/
inductive ToolImpl where
  | calculatorT
  | fileOperationsT
  | systemInfoT
deriving DecidableEq

/-- Name of a registered tool, the registry key. -/
def ToolImpl.name : ToolImpl → String
  | .calculatorT => "calculator"
  | .fileOperationsT => "file_operations"
  | .systemInfoT => "system_info"

/-- Description of a registered tool. -/
def ToolImpl.description : ToolImpl → String
  | .calculatorT =>
    "Perform basic mathematical calculations (add, subtract, multiply, divide)"
  | .fileOperationsT => "Read, write, and list files in the current workspace"
  | .systemInfoT =>
    "Get information about the system (platform, CPU, memory, uptime)"

/-- Input schema of a registered tool. -/
def ToolImpl.inputSchema : ToolImpl → InputSchema
  | .calculatorT => CalculatorTool.inputSchema
  | .fileOperationsT => FileOperationsTool.inputSchema
  | .systemInfoT => SystemInfoTool.inputSchema

/-- Definition exposed through tools/list (BaseTool.getDefinition). -/
structure ToolDefinition where
  name : String
  description : String
  inputSchema : InputSchema
deriving DecidableEq

/-- BaseTool.getDefinition for a registered tool. -/
def ToolImpl.getDefinition (t : ToolImpl) : ToolDefinition :=
  { name := t.name, description := t.description, inputSchema := t.inputSchema }

/-- JavaScript Map.set: replace in place when the key exists, else append
(insertion order is preserved, as Map iteration order requires). -/
def mapSet (m : List (String × ToolImpl)) (k : String) (v : ToolImpl) :
    List (String × ToolImpl) :=
  if (assocLookup m k).isSome then
    m.map (fun p => if p.1 = k then (k, v) else p)
  else m ++ [(k, v)]

/-- MCPServerDemo.registerTools: insert the three tool instances into the
registry map, keyed by name, in construction order. -/
def registerTools : List (String × ToolImpl) :=
  [ToolImpl.calculatorT, ToolImpl.fileOperationsT, ToolImpl.systemInfoT].foldl
    (fun m t => mapSet m t.name t) []

/-- Abstract execution environment: the filesystem, the host, the
workspace root captured at startup, and the current time. -/
structure Env where
  fs : Fs
  host : HostInfo
  workspaceRoot : String
  now : Nat

/-- Dispatch of tool.execute for a registered tool; the calculator and
system_info touch no files, so their traces are empty. -/
def ToolImpl.executeTool : ToolImpl → Env → Json → Except String ToolResult × List FsOp
  | .calculatorT, _, args => (CalculatorTool.execute args, [])
  | .fileOperationsT, env, args =>
    FileOperationsTool.execute env.fs env.workspaceRoot args
  | .systemInfoT, env, args => (.ok (SystemInfoTool.execute env.host args), [])

/-- One usage-log entry (google-adk.ts ToolUsageLog). -/
structure ToolUsageLog where
  toolName : String
  arguments : Json
  result : ToolResult
  timestamp : Nat

/-- Mutable state of the GoogleADKIntegration: the enabled flag computed
from the environment variable at construction, and the in-memory log
list. -/
structure ServerState where
  enabled : Bool
  logs : List ToolUsageLog

/-- Flag computation of the GoogleADKIntegration constructor: enabled
exactly when the environment variable is the string true. -/
def adkEnabled (envVar : Option String) : Bool :=
  if envVar = some "true" then true else false

/-- GoogleADKIntegration.logToolUsage: append one entry to the in-memory
list; the enabled flag gates only a commented-out analytics upload, so
the function always succeeds and has no other effect. -/
def logToolUsage (st : ServerState) (now : Nat) (toolName : String)
    (arguments : Json) (result : ToolResult) : ServerState :=
  { st with logs := st.logs ++ [{ toolName := toolName, arguments := arguments,
                                  result := result, timestamp := now }] }

/-- One item of a tools/call response content array. -/
structure ContentItem where
  type : String
  text : String
deriving DecidableEq

/-- Protocol-level result of a tools/call: content items plus the isError
marker (absent on success, modelled as false). -/
structure CallToolResponse where
  content : List ContentItem
  isError : Bool
deriving DecidableEq

/-- Error envelope produced by the catch block of the tools/call
handler. -/
def errEnvelope (msg : String) : CallToolResponse :=
  { content := [{ type := "text", text := "Error: " ++ msg }], isError := true }

/-- Success envelope of the tools/call handler: the stringified
ToolResult. -/
def okEnvelope (r : ToolResult) : CallToolResponse :=
  { content := [{ type := "text", text := jsonStringify r.toJson }],
    isError := false }

/-- Boolean success test of a handler outcome. -/
def isOkResult : Except String CallToolResponse → Bool
  | .ok _ => true
  | .error _ => false

/-- The tools/call handler of MCPServerDemo.setupHandlers, with the
outcome of the awaited usage-recorder call abstracted as a parameter so
that recorder-failure counterfactuals are statable: look up the tool
(an absent name throws out of the handler, outside the try block), then
inside the try validate, execute, and record, converting any caught
failure to the error envelope. -/
def handleCallToolRec (recOutcome : Except String Unit) (env : Env)
    (st : ServerState) (name : String) (args : Option Json) :
    Except String CallToolResponse × ServerState × List FsOp :=
  match assocLookup registerTools name with
  | none => (.error ("Tool \"" ++ name ++ "\" not found"), st, [])
  | some tool =>
    match validateArguments tool.inputSchema args with
    | .error m => (.ok (errEnvelope m), st, [])
    | .ok () =>
      -- Validation guarantees the arguments are present; the default is
      -- never read.
      let a := args.getD Json.null
      match tool.executeTool env a with
      | (.error m, ops) => (.ok (errEnvelope m), st, ops)
      | (.ok result, ops) =>
        let st2 := logToolUsage st env.now name a result
        match recOutcome with
        | .error m => (.ok (errEnvelope m), st2, ops)
        | .ok () => (.ok (okEnvelope result), st2, ops)

/-- The tools/call handler as shipped: logToolUsage is total, so the
recorder outcome is always success. -/
def handleCallTool (env : Env) (st : ServerState) (name : String)
    (args : Option Json) :
    Except String CallToolResponse × ServerState × List FsOp :=
  match assocLookup registerTools name with
  | none => (.error ("Tool \"" ++ name ++ "\" not found"), st, [])
  | some tool =>
    match validateArguments tool.inputSchema args with
    | .error m => (.ok (errEnvelope m), st, [])
    | .ok () =>
      let a := args.getD Json.null
      match tool.executeTool env a with
      | (.error m, ops) => (.ok (errEnvelope m), st, ops)
      | (.ok result, ops) =>
        (.ok (okEnvelope result), logToolUsage st env.now name a result, ops)

/-- One content element of a resources/read response. -/
structure ResourceContents where
  uri : String
  mimeType : String
  text : String
deriving DecidableEq

/-- The resources/read handler of MCPServerDemo.setupHandlers: the single
known URI re-runs the system_info tool with empty arguments (hence basic
detail) and serializes the full ToolResult as JSON; any other URI throws
out of the handler. -/
def handleReadResource (env : Env) (uri : String) : Except String ResourceContents :=
  if uri = "file:///system-info" then
    .ok { uri := uri,
          mimeType := "application/json",
          text := jsonStringify (SystemInfoTool.execute env.host (Json.obj [])).toJson }
  else .error ("Resource \"" ++ uri ++ "\" not found")

/-- Requests relevant to the claims (the tools/list handler takes no
parameters). -/
inductive Request where
  | listToolsReq
  | callToolReq (name : String) (args : Option Json)
  | readResourceReq (uri : String)

/-- Responses of the modelled handlers. -/
inductive Response where
  | toolsResp (tools : List ToolDefinition)
  | callResp (r : Except String CallToolResponse)
  | resourceResp (r : Except String ResourceContents)

/-- Request dispatch of MCPServerDemo.setupHandlers over the modelled
requests. The registry is built once in the constructor and never
mutated afterwards; only the recorder state changes across requests. -/
def handleRequest (env : Env) (st : ServerState) :
    Request → Response × ServerState
  | .listToolsReq =>
    (.toolsResp (registerTools.map (fun p => p.2.getDefinition)), st)
  | .callToolReq name args =>
    match handleCallTool env st name args with
    | (r, st2, _) => (.callResp r, st2)
  | .readResourceReq uri => (.resourceResp (handleReadResource env uri), st)

/-- Sample host used by concrete witnesses. -/
def sampleHost : HostInfo :=
  { platform := "linux", arch := "x64", uptime := 100,
    totalmem := 8388608, freemem := 4194304, cpus := [] }

/-- Sample filesystem used by concrete witnesses: every read fails with
ENOENT, writes succeed, directories are empty, stat succeeds. -/
def sampleFs : Fs :=
  { readFileF := fun _ =>
      .error { code := some "ENOENT", message := "ENOENT: no such file or directory" },
    writeFileF := fun _ _ => .ok (),
    readdirF := fun _ => .ok [],
    statF := fun _ => .ok { isDir := false, size := 0, birthtime := "t0", mtime := "t1" } }

/-- Sample environment used by concrete witnesses. -/
def sampleEnv : Env :=
  { fs := sampleFs, host := sampleHost, workspaceRoot := "/workspace", now := 0 }

/-- Sample recorder state used by concrete witnesses. -/
def sampleState : ServerState := { enabled := false, logs := [] }

/-- Spec-side statement of the per-key type rule (section 4.6 of the
spec): a declared number/string/boolean type must match the runtime
typeof; any other declared type passes. -/
def specTypeMatches (t : String) (v : Json) : Bool :=
  if t = "number" then decide (jsTypeof v = "number")
  else if t = "string" then decide (jsTypeof v = "string")
  else if t = "boolean" then decide (jsTypeof v = "boolean")
  else true

/-- Spec-side statement of argument validation (section 4.6 of the spec):
accept exactly when the arguments are a present object, every required
name is present, and every supplied key that is declared with a primitive
type matches it; keys absent from the property mapping pass unchecked. -/
def specAccepts (schema : InputSchema) (args : Option Json) : Bool :=
  match args with
  | none => false
  | some a =>
    jsTruthy a && decide (jsTypeof a = "object")
    && schema.required.all (fun f => jsHasField a f)
    && (jsEntries a).all (fun kv =>
         match assocLookup schema.properties kv.1 with
         | none => true
         | some ps => specTypeMatches ps.type kv.2)

/-- Association lookup commutes with mapping the values. -/
theorem assocLookup_map {α β : Type} (f : α → β) (l : List (String × α)) (k : String) :
    assocLookup (l.map (fun p => (p.1, f p.2))) k = (assocLookup l k).map f := by
  induction l with
  | nil => rfl
  | cons p rest ih =>
    by_cases h : p.1 = k <;> simp [assocLookup, h, ih]

/-- The required-field loop succeeds exactly when every required name is
present. -/
theorem checkRequired_ok_iff (req : List String) (a : Json) :
    checkRequired req a = Except.ok () ↔ req.all (fun f => jsHasField a f) = true := by
  induction req with
  | nil => simp [checkRequired]
  | cons f rest ih =>
    by_cases h : jsHasField a f <;> simp [checkRequired, h, ih]

/-- The per-entry check succeeds exactly when the spec-side type rule
holds for the entry. -/
theorem checkEntry_ok_iff (props : List (String × PropSchema)) (k : String) (v : Json) :
    checkEntry props k v = Except.ok () ↔
      (match assocLookup props k with
       | none => true
       | some ps => specTypeMatches ps.type v) = true := by
  unfold checkEntry
  cases assocLookup props k with
  | none => simp
  | some ps =>
    unfold specTypeMatches
    by_cases hn : ps.type = "number"
    · by_cases hv : jsTypeof v = "number" <;> simp [hn, hv]
    · by_cases hs : ps.type = "string"
      · by_cases hv : jsTypeof v = "string" <;> simp [hn, hs, hv]
      · by_cases hb : ps.type = "boolean"
        · by_cases hv : jsTypeof v = "boolean" <;> simp [hn, hs, hb, hv]
        · simp [hn, hs, hb]

/-- The entry loop succeeds exactly when every entry passes the spec-side
type rule. -/
theorem checkTypes_ok_iff (props : List (String × PropSchema))
    (entries : List (String × Json)) :
    checkTypes props entries = Except.ok () ↔
      entries.all (fun kv =>
        match assocLookup props kv.1 with
        | none => true
        | some ps => specTypeMatches ps.type kv.2) = true := by
  induction entries with
  | nil => simp [checkTypes]
  | cons kv rest ih =>
    obtain ⟨k, v⟩ := kv
    cases hce : checkEntry props k v with
    | error m =>
      have hneq : ¬ ((match assocLookup props k with
          | none => true
          | some ps => specTypeMatches ps.type v) = true) := by
        rw [← checkEntry_ok_iff, hce]; simp
      simp [checkTypes, hce, hneq]
    | ok u =>
      cases u
      have heq : (match assocLookup props k with
          | none => true
          | some ps => specTypeMatches ps.type v) = true := by
        rw [← checkEntry_ok_iff, hce]
      simp [checkTypes, hce, heq, ih]

/-- C5: for every tool schema and every supplied arguments value,
BaseTool.validateArguments accepts exactly when the arguments are a
present (truthy) object, every name in the required set is present, and
every supplied key declared with a number/string/boolean type matches
that runtime type; keys absent from the property mapping and keys with a
declared object/array type pass through unchecked. Equivalently, it
rejects exactly in the complementary cases. -/
theorem validateArguments_iff_specAccepts (schema : InputSchema) (args : Option Json) :
    validateArguments schema args = Except.ok () ↔ specAccepts schema args = true := by
  unfold validateArguments specAccepts
  cases args with
  | none => simp
  | some a =>
    by_cases hT : jsTruthy a = false ∨ jsTypeof a ≠ "object"
    · have hbool : (jsTruthy a && decide (jsTypeof a = "object")) = false := by
        rcases hT with h | h
        · simp [h]
        · simp [h]
      simp only [if_pos hT, hbool, Bool.false_and]
      simp
    · push_neg at hT
      obtain ⟨h1, h2⟩ := hT
      have h1t : jsTruthy a = true := by
        cases h : jsTruthy a
        · exact absurd h h1
        · rfl
      simp only [if_neg (by simp [h1t, h2] : ¬ (jsTruthy a = false ∨ jsTypeof a ≠ "object"))]
      have hhead : (jsTruthy a && decide (jsTypeof a = "object")) = true := by
        simp [h1t, h2]
      simp only [hhead, Bool.true_and]
      cases hcr : checkRequired schema.required a with
      | error m =>
        have hall : ¬ (schema.required.all (fun f => jsHasField a f) = true) := by
          rw [← checkRequired_ok_iff, hcr]; simp
        simp [hall]
      | ok u =>
        cases u
        have hall : schema.required.all (fun f => jsHasField a f) = true := by
          rw [← checkRequired_ok_iff, hcr]
        simp [hall, checkTypes_ok_iff]

/-- C5 witness: the calculator schema rejects absent arguments and
accepts a fully typed argument object, both obtained from the
equivalence at concrete inputs. -/
theorem validateArguments_iff_specAccepts_witness :
    ¬ (validateArguments CalculatorTool.inputSchema none = Except.ok ())
    ∧ validateArguments CalculatorTool.inputSchema
        (some (Json.obj [("operation", Json.str "add"), ("a", Json.num 1), ("b", Json.num 2)]))
        = Except.ok () := by
  constructor
  · intro h
    exact absurd ((validateArguments_iff_specAccepts CalculatorTool.inputSchema none).mp h)
      (by decide)
  · exact (validateArguments_iff_specAccepts CalculatorTool.inputSchema _).mpr (by decide)

/-- C1: for every file_operations call, whatever the operation and
content, a path containing a parent-directory segment or starting with a
path separator is rejected by validatePath before the try block, with the
descriptive traversal or absolute-path error, and the returned trace of
filesystem calls is empty: the filesystem is never touched. -/
theorem fileOperations_rejects_bad_paths (fs : Fs) (root : String) (opv : Json)
    (p : String) (contentv : Option Json)
    (hbad : strIncludes p ".." = true ∨ jsStartsWith p "/" = true) :
    FileOperationsTool.execute fs root
      (Json.obj ([("operation", opv), ("path", Json.str p)] ++ optField "content" contentv)) =
    (Except.error (if strIncludes p ".." = true
       then "Path traversal (..) is not allowed"
       else "Absolute paths are not allowed"), ([] : List FsOp)) := by
  by_cases hinc : strIncludes p ".." = true
  · simp [FileOperationsTool.execute, FileOperationsTool.validatePath, jsGet,
      assocLookup, hinc]
  · have hsw : jsStartsWith p "/" = true := by
      rcases hbad with h | h
      · exact absurd h hinc
      · exact h
    simp [FileOperationsTool.execute, FileOperationsTool.validatePath, jsGet,
      assocLookup, hinc, hsw]

/-- C1 witness: a traversal path is rejected with the traversal error and
an empty filesystem trace. -/
theorem fileOperations_rejects_bad_paths_witness :
    (strIncludes "../etc/passwd" ".." = true ∨ jsStartsWith "../etc/passwd" "/" = true)
    ∧ FileOperationsTool.execute sampleFs "/workspace"
        (Json.obj ([("operation", Json.str "read"), ("path", Json.str "../etc/passwd")]
          ++ optField "content" none)) =
      (Except.error (if strIncludes "../etc/passwd" ".." = true
         then "Path traversal (..) is not allowed"
         else "Absolute paths are not allowed"), ([] : List FsOp)) :=
  ⟨by decide,
   fileOperations_rejects_bad_paths sampleFs "/workspace" (Json.str "read")
     "../etc/passwd" none (by decide)⟩

/-- C3: for each of the four operations with numeric operands (the
divisor nonzero under divide), CalculatorTool.execute succeeds and the
payload echoes the operation, both operands, and the exact arithmetic
result. -/
theorem calculator_exact_arithmetic (a b : Rat) (op : String)
    (hop : op ∈ ["add", "subtract", "multiply", "divide"])
    (hdiv : op = "divide" → b ≠ 0) :
    CalculatorTool.execute
      (Json.obj [("operation", Json.str op), ("a", Json.num a), ("b", Json.num b)]) =
    Except.ok { success := true,
                data := some (Json.obj
                  [("operation", Json.str op),
                   ("operands", Json.obj [("a", Json.num a), ("b", Json.num b)]),
                   ("result", Json.num (if op = "add" then a + b
                      else if op = "subtract" then a - b
                      else if op = "multiply" then a * b
                      else a / b))]),
                error := none } := by
  have hb0 : op = "divide" → (decide (b = 0)) = false := by
    intro h
    simpa using hdiv h
  simp only [List.mem_cons, List.not_mem_nil, or_false] at hop
  rcases hop with h | h | h | h
  · subst h
    simp [CalculatorTool.execute, jsGet, assocLookup, jsIsStr,
      CalculatorTool.calcSuccess, CalculatorTool.jsAdd, optField]
  · subst h
    simp [CalculatorTool.execute, jsGet, assocLookup, jsIsStr,
      CalculatorTool.calcSuccess, CalculatorTool.jsSub, optField]
  · subst h
    simp [CalculatorTool.execute, jsGet, assocLookup, jsIsStr,
      CalculatorTool.calcSuccess, CalculatorTool.jsMul, optField]
  · subst h
    simp [CalculatorTool.execute, jsGet, assocLookup, jsIsStr, jsIsNum,
      CalculatorTool.calcSuccess, CalculatorTool.jsDiv, optField,
      hb0 rfl, hdiv rfl]

/-- C3 witness: addition of one and two succeeds with the echoed payload
and exact sum. -/
theorem calculator_exact_arithmetic_witness :
    (("add" : String) ∈ ["add", "subtract", "multiply", "divide"])
    ∧ (("add" : String) = "divide" → (2 : Rat) ≠ 0)
    ∧ CalculatorTool.execute
        (Json.obj [("operation", Json.str "add"), ("a", Json.num 1), ("b", Json.num 2)]) =
      Except.ok { success := true,
                  data := some (Json.obj
                    [("operation", Json.str "add"),
                     ("operands", Json.obj [("a", Json.num 1), ("b", Json.num 2)]),
                     ("result", Json.num (if ("add" : String) = "add" then (1 : Rat) + 2
                        else if ("add" : String) = "subtract" then (1 : Rat) - 2
                        else if ("add" : String) = "multiply" then (1 : Rat) * 2
                        else (1 : Rat) / 2))]),
                  error := none } :=
  ⟨by decide, by decide,
   calculator_exact_arithmetic 1 2 "add" (by decide) (by decide)⟩

/-- C4: a divide call whose second operand is the number zero always
throws the division-by-zero error, whatever the first operand, and never
returns a success result (so no Infinity or NaN payload is possible). -/
theorem calculator_divide_by_zero (a : Json) :
    CalculatorTool.execute
      (Json.obj [("operation", Json.str "divide"), ("a", a), ("b", Json.num 0)]) =
      Except.error "Division by zero is not allowed"
    ∧ ∀ r : ToolResult, CalculatorTool.execute
        (Json.obj [("operation", Json.str "divide"), ("a", a), ("b", Json.num 0)])
        ≠ Except.ok r := by
  have h : CalculatorTool.execute
      (Json.obj [("operation", Json.str "divide"), ("a", a), ("b", Json.num 0)]) =
      Except.error "Division by zero is not allowed" := rfl
  exact ⟨h, fun r hr => by rw [h] at hr; exact Except.noConfusion hr⟩

/-- C6: resources/read of the single known URI recomputes the system_info
tool with empty arguments (hence basic detail) and returns its JSON with
MIME type application/json; the payload carries platform, architecture,
floored uptime, and the memory total/free/used block; every other URI
throws the resource-not-found error out of the handler. -/
theorem readResource_spec (env : Env) (uri : String) :
    (uri = "file:///system-info" →
      handleReadResource env uri =
        Except.ok { uri := uri, mimeType := "application/json",
                    text := jsonStringify
                      (SystemInfoTool.execute env.host (Json.obj [])).toJson }
      ∧ SystemInfoTool.execute env.host (Json.obj []) =
          { success := true, data := some (SystemInfoTool.basicInfo env.host),
            error := none }
      ∧ jsGet (SystemInfoTool.basicInfo env.host) "platform"
          = some (Json.str env.host.platform)
      ∧ jsGet (SystemInfoTool.basicInfo env.host) "architecture"
          = some (Json.str env.host.arch)
      ∧ jsGet (SystemInfoTool.basicInfo env.host) "uptime"
          = some (Json.num (Rat.floor env.host.uptime : Int))
      ∧ ∃ mem, jsGet (SystemInfoTool.basicInfo env.host) "memory" = some mem
          ∧ jsGet mem "total"
              = some (Json.num (jsRound (env.host.totalmem / 1024 / 1024) : Int))
          ∧ jsGet mem "free"
              = some (Json.num (jsRound (env.host.freemem / 1024 / 1024) : Int))
          ∧ jsGet mem "used"
              = some (Json.num (jsRound
                  ((env.host.totalmem - env.host.freemem) / 1024 / 1024) : Int)))
    ∧ (uri ≠ "file:///system-info" →
        handleReadResource env uri
          = Except.error ("Resource \"" ++ uri ++ "\" not found")) := by
  constructor
  · intro h
    subst h
    refine ⟨rfl, rfl, rfl, rfl, rfl, ?_⟩
    exact ⟨_, rfl, rfl, rfl, rfl⟩
  · intro h
    simp [handleReadResource, h]

/-- C6 witness: the equivalence applied at the sample environment, at the
known URI and at one unknown URI. -/
theorem readResource_spec_witness :
    (handleReadResource sampleEnv "file:///system-info" =
      Except.ok { uri := "file:///system-info", mimeType := "application/json",
                  text := jsonStringify
                    (SystemInfoTool.execute sampleEnv.host (Json.obj [])).toJson })
    ∧ handleReadResource sampleEnv "file:///other"
        = Except.error ("Resource \"" ++ "file:///other" ++ "\" not found") :=
  ⟨((readResource_spec sampleEnv "file:///system-info").1 rfl).1,
   (readResource_spec sampleEnv "file:///other").2 (by decide)⟩

/-- C7: tools/list returns exactly the three registered tool definitions,
in registration order, each exposing its name, description and input
schema; the response is the same in every server state (the registry is
fixed at construction), so repeated calls return identical tool sets and
the state is unchanged. -/
theorem listTools_spec (env : Env) (st : ServerState) :
    (handleRequest env st Request.listToolsReq).1 = Response.toolsResp
      [{ name := "calculator",
         description :=
           "Perform basic mathematical calculations (add, subtract, multiply, divide)",
         inputSchema := CalculatorTool.inputSchema },
       { name := "file_operations",
         description := "Read, write, and list files in the current workspace",
         inputSchema := FileOperationsTool.inputSchema },
       { name := "system_info",
         description :=
           "Get information about the system (platform, CPU, memory, uptime)",
         inputSchema := SystemInfoTool.inputSchema }]
    ∧ (handleRequest env st Request.listToolsReq).2 = st
    ∧ ∀ (env2 : Env) (st2 : ServerState),
        (handleRequest env st Request.listToolsReq).1
          = (handleRequest env2 st2 Request.listToolsReq).1 :=
  ⟨rfl, rfl, fun _ _ => rfl⟩

/-- C7 witness: the listing at the sample environment and state. -/
theorem listTools_spec_witness :
    (handleRequest sampleEnv sampleState Request.listToolsReq).1 = Response.toolsResp
      [{ name := "calculator",
         description :=
           "Perform basic mathematical calculations (add, subtract, multiply, divide)",
         inputSchema := CalculatorTool.inputSchema },
       { name := "file_operations",
         description := "Read, write, and list files in the current workspace",
         inputSchema := FileOperationsTool.inputSchema },
       { name := "system_info",
         description :=
           "Get information about the system (platform, CPU, memory, uptime)",
         inputSchema := SystemInfoTool.inputSchema }]
    ∧ (handleRequest sampleEnv sampleState Request.listToolsReq).2 = sampleState
    ∧ ∀ (env2 : Env) (st2 : ServerState),
        (handleRequest sampleEnv sampleState Request.listToolsReq).1
          = (handleRequest env2 st2 Request.listToolsReq).1 :=
  listTools_spec sampleEnv sampleState

/-- C2 counterexample: a tools/call naming a tool absent from the
registry is not converted into a successful protocol response with the
isError marker; the dispatcher throws before its try block, so the
handler outcome is an error (a protocol-level fault), refuting the claim
at this concrete input. -/
theorem callTool_unknown_name_not_enveloped :
    isOkResult (handleCallTool sampleEnv sampleState "nonexistent_tool"
      (some (Json.obj []))).1 = false
    ∧ (handleCallTool sampleEnv sampleState "nonexistent_tool"
        (some (Json.obj []))).1
        = Except.error ("Tool \"" ++ "nonexistent_tool" ++ "\" not found") :=
  ⟨rfl, rfl⟩

/-- C2 amended: for a tool name absent from the registry the dispatcher
throws out of the handler with the tool-not-found message (a
protocol-level fault, not the error envelope); for every registered tool
the handler always returns a successful protocol response, and both
validation failures and tool-internal failures are converted into the
envelope with content Error-prefixed text and isError true. -/
theorem callTool_error_envelope (env : Env) (st : ServerState) (name : String)
    (args : Option Json) :
    (assocLookup registerTools name = none →
      (handleCallTool env st name args).1
        = Except.error ("Tool \"" ++ name ++ "\" not found"))
    ∧ (∀ tool : ToolImpl, assocLookup registerTools name = some tool →
        isOkResult (handleCallTool env st name args).1 = true
        ∧ (∀ m : String, validateArguments tool.inputSchema args = Except.error m →
            (handleCallTool env st name args).1 = Except.ok (errEnvelope m))
        ∧ (∀ (m : String) (ops : List FsOp),
            validateArguments tool.inputSchema args = Except.ok () →
            tool.executeTool env (args.getD Json.null) = (Except.error m, ops) →
            (handleCallTool env st name args).1 = Except.ok (errEnvelope m))) := by
  cases hL : assocLookup registerTools name with
  | none =>
    constructor
    · intro _
      simp [handleCallTool, hL]
    · intro tool htool
      exact Option.noConfusion htool
  | some t =>
    constructor
    · intro h
      exact Option.noConfusion h
    · intro tool htool
      injection htool with htool
      subst htool
      cases hV : validateArguments t.inputSchema args with
      | error m =>
        refine ⟨?_, ?_, ?_⟩
        · simp [handleCallTool, hL, hV, isOkResult]
        · intro m2 hm2
          injection hm2 with hm2
          subst hm2
          simp [handleCallTool, hL, hV]
        · intro m2 ops hok _
          exact Except.noConfusion hok
      | ok u =>
        cases u
        rcases hE : t.executeTool env (args.getD Json.null) with ⟨r, ops⟩
        cases r with
        | error m =>
          refine ⟨?_, ?_, ?_⟩
          · simp [handleCallTool, hL, hV, hE, isOkResult]
          · intro m2 hm2
            exact Except.noConfusion hm2
          · intro m2 ops2 _ hE2
            injection hE2 with hE2a hE2b
            injection hE2a with hE2a
            subst hE2a
            simp [handleCallTool, hL, hV, hE]
        | ok result =>
          refine ⟨?_, ?_, ?_⟩
          · simp [handleCallTool, hL, hV, hE, isOkResult]
          · intro m2 hm2
            exact Except.noConfusion hm2
          · intro m2 ops2 _ hE2
            injection hE2 with hE2a hE2b
            exact Except.noConfusion hE2a

/-- C2 witness: the amended theorem applied at a registered tool (the
calculator) with valid arguments yields a successful protocol response,
and at a failing divide-by-zero call yields the error envelope. -/
theorem callTool_error_envelope_witness :
    isOkResult (handleCallTool sampleEnv sampleState "calculator"
      (some (Json.obj [("operation", Json.str "add"),
                       ("a", Json.num 1), ("b", Json.num 2)]))).1 = true
    ∧ (handleCallTool sampleEnv sampleState "calculator"
        (some (Json.obj [("operation", Json.str "divide"),
                         ("a", Json.num 1), ("b", Json.num 0)]))).1
        = Except.ok (errEnvelope "Division by zero is not allowed") :=
  ⟨((callTool_error_envelope sampleEnv sampleState "calculator"
      (some (Json.obj [("operation", Json.str "add"),
                       ("a", Json.num 1), ("b", Json.num 2)]))).2
      ToolImpl.calculatorT rfl).1,
   (((callTool_error_envelope sampleEnv sampleState "calculator"
      (some (Json.obj [("operation", Json.str "divide"),
                       ("a", Json.num 1), ("b", Json.num 0)]))).2
      ToolImpl.calculatorT rfl).2.2 "Division by zero is not allowed" [] rfl rfl)⟩

/-- Projection used to separate handler outcomes: protocol faults and
error envelopes map to true, successful envelopes to false. -/
def respIsError : Except String CallToolResponse → Bool
  | .ok r => r.isError
  | .error _ => true

/-- C9 counterexample: at a concrete calculator call, the dispatcher
response differs between a succeeding and a failing recorder outcome,
because the recorder is awaited inside the try block whose catch turns
its failure into the error envelope: the claim that the response is
identical whether the recording step succeeds or fails is false. -/
theorem recorder_failure_changes_response :
    respIsError (handleCallToolRec (Except.ok ()) sampleEnv sampleState "calculator"
      (some (Json.obj [("operation", Json.str "add"),
                       ("a", Json.num 1), ("b", Json.num 2)]))).1 = false
    ∧ respIsError (handleCallToolRec (Except.error "recorder failure") sampleEnv
        sampleState "calculator"
        (some (Json.obj [("operation", Json.str "add"),
                         ("a", Json.num 1), ("b", Json.num 2)]))).1 = true
    ∧ (handleCallToolRec (Except.ok ()) sampleEnv sampleState "calculator"
        (some (Json.obj [("operation", Json.str "add"),
                         ("a", Json.num 1), ("b", Json.num 2)]))).1
      ≠ (handleCallToolRec (Except.error "recorder failure") sampleEnv sampleState
          "calculator"
          (some (Json.obj [("operation", Json.str "add"),
                           ("a", Json.num 1), ("b", Json.num 2)]))).1 := by
  refine ⟨rfl, rfl, ?_⟩
  intro h
  have h2 := congrArg respIsError h
  rw [show respIsError (handleCallToolRec (Except.ok ()) sampleEnv sampleState
      "calculator" (some (Json.obj [("operation", Json.str "add"),
        ("a", Json.num 1), ("b", Json.num 2)]))).1 = false from rfl] at h2
  rw [show respIsError (handleCallToolRec (Except.error "recorder failure") sampleEnv
      sampleState "calculator" (some (Json.obj [("operation", Json.str "add"),
        ("a", Json.num 1), ("b", Json.num 2)]))).1 = true from rfl] at h2
  exact Bool.noConfusion h2

/-- C9 amended: the usage recorder as implemented never fails (the
dispatcher as shipped coincides with the recorder-success run), and the
returned response of a tools/call is independent of the recorder state —
in particular of the analytics flag, which is true exactly when the
environment variable is the string true; a recorder failure, however,
would surface as the error envelope because the recorder is awaited
inside the try block. -/
theorem recorder_independent_response (env : Env) (name : String)
    (args : Option Json) :
    (∀ st1 st2 : ServerState,
      (handleCallTool env st1 name args).1 = (handleCallTool env st2 name args).1)
    ∧ (∀ st : ServerState,
        (handleCallTool env st name args).1
          = (handleCallToolRec (Except.ok ()) env st name args).1)
    ∧ (∀ v : Option String, v ≠ some "true" → adkEnabled v = false)
    ∧ adkEnabled (some "true") = true := by
  refine ⟨?_, fun st => rfl, fun v hv => by simp [adkEnabled, hv], rfl⟩
  intro st1 st2
  cases hL : assocLookup registerTools name with
  | none => simp [handleCallTool, hL]
  | some t =>
    cases hV : validateArguments t.inputSchema args with
    | error m => simp [handleCallTool, hL, hV]
    | ok u =>
      cases u
      rcases hE : t.executeTool env (args.getD Json.null) with ⟨r, ops⟩
      cases r with
      | error m => simp [handleCallTool, hL, hV, hE]
      | ok result => simp [handleCallTool, hL, hV, hE]

/-- C9 witness: the amended theorem applied at the sample environment,
with the two recorder states differing in the flag and the logs. -/
theorem recorder_independent_response_witness :
    (handleCallTool sampleEnv sampleState "calculator"
      (some (Json.obj [("operation", Json.str "multiply"),
                       ("a", Json.num 6), ("b", Json.num 7)]))).1
      = (handleCallTool sampleEnv { enabled := true, logs := [] } "calculator"
          (some (Json.obj [("operation", Json.str "multiply"),
                           ("a", Json.num 6), ("b", Json.num 7)]))).1
    ∧ adkEnabled none = false ∧ adkEnabled (some "1") = false
    ∧ adkEnabled (some "true") = true :=
  ⟨(recorder_independent_response sampleEnv "calculator"
      (some (Json.obj [("operation", Json.str "multiply"),
                       ("a", Json.num 6), ("b", Json.num 7)]))).1
      sampleState { enabled := true, logs := [] },
   (recorder_independent_response sampleEnv "calculator" none).2.2.1 none (by decide),
   (recorder_independent_response sampleEnv "calculator" none).2.2.1 (some "1")
     (by decide),
   (recorder_independent_response sampleEnv "calculator" none).2.2.2⟩

/-- Copy of a property schema with its enum constraint erased. -/
def eraseEnum (ps : PropSchema) : PropSchema :=
  { type := ps.type, enum := none, description := ps.description }

/-- The per-entry check never reads the declared enum of a property. -/
theorem checkEntry_enum_irrelevant (props : List (String × PropSchema))
    (k : String) (v : Json) :
    checkEntry (props.map (fun p => (p.1, eraseEnum p.2))) k v
      = checkEntry props k v := by
  unfold checkEntry
  rw [assocLookup_map]
  cases assocLookup props k <;> simp [eraseEnum]

/-- The entry loop never reads the declared enums. -/
theorem checkTypes_enum_irrelevant (props : List (String × PropSchema))
    (entries : List (String × Json)) :
    checkTypes (props.map (fun p => (p.1, eraseEnum p.2))) entries
      = checkTypes props entries := by
  induction entries with
  | nil => rfl
  | cons kv rest ih =>
    obtain ⟨k, v⟩ := kv
    unfold checkTypes
    rw [checkEntry_enum_irrelevant]
    cases checkEntry props k v with
    | error m => rfl
    | ok u => cases u; exact ih

/-- C10: argument validation never enforces declared enum constraints —
erasing every enum from a schema leaves validateArguments unchanged on
all arguments — and, concretely, a system_info call whose detail is any
string other than full passes validation, reaches execute, and succeeds
with the basic-detail payload. -/
theorem enum_not_enforced (schema : InputSchema) (args : Option Json)
    (env : Env) (st : ServerState) (s : String) (hs : s ≠ "full") :
    validateArguments
      { properties := schema.properties.map (fun p => (p.1, eraseEnum p.2)),
        required := schema.required } args
      = validateArguments schema args
    ∧ (handleCallTool env st "system_info"
        (some (Json.obj [("detail", Json.str s)]))).1
      = Except.ok (okEnvelope
          { success := true, data := some (SystemInfoTool.basicInfo env.host),
            error := none }) := by
  constructor
  · unfold validateArguments
    cases args with
    | none => rfl
    | some a =>
      by_cases hT : jsTruthy a = false ∨ jsTypeof a ≠ "object"
      · simp [hT]
      · simp only [if_neg hT]
        cases checkRequired schema.required a with
        | error m => rfl
        | ok u => cases u; exact checkTypes_enum_irrelevant _ _
  · have hstep : (handleCallTool env st "system_info"
        (some (Json.obj [("detail", Json.str s)]))).1
        = Except.ok (okEnvelope
            (SystemInfoTool.execute env.host (Json.obj [("detail", Json.str s)]))) := rfl
    rw [hstep]
    have hexec : SystemInfoTool.execute env.host (Json.obj [("detail", Json.str s)])
        = { success := true, data := some (SystemInfoTool.basicInfo env.host),
            error := none } := by
      simp [SystemInfoTool.execute, jsGet, assocLookup, jsIsStr, hs]
    rw [hexec]

/-- C10 witness: the theorem applied to the calculator schema, sample
environment, and the out-of-enum detail string verbose. -/
theorem enum_not_enforced_witness :
    (("verbose" : String) ≠ "full")
    ∧ (handleCallTool sampleEnv sampleState "system_info"
        (some (Json.obj [("detail", Json.str "verbose")]))).1
      = Except.ok (okEnvelope
          { success := true, data := some (SystemInfoTool.basicInfo sampleEnv.host),
            error := none }) :=
  ⟨by decide,
   (enum_not_enforced CalculatorTool.inputSchema none sampleEnv sampleState
     "verbose" (by decide)).2⟩

/-- C8: for every operation whose filesystem access fails, the catch
block of FileOperationsTool.execute maps an ENOENT failure to the
distinct not-found message carrying the original pre-resolution path,
and propagates the message of every other I/O fault unmodified; the
trace shows exactly the filesystem calls made before the failure. -/
theorem fileOperations_not_found_mapping (fs : Fs) (root p : String) (e : IOErr)
    (hp1 : strIncludes p ".." = false) (hp2 : jsStartsWith p "/" = false) :
    (fs.readFileF (joinPath root p) = Except.error e →
      FileOperationsTool.execute fs root
        (Json.obj [("operation", Json.str "read"), ("path", Json.str p)]) =
      (Except.error (if e.code = some "ENOENT"
         then "File or directory not found: " ++ p else e.message),
       [FsOp.readFileOp (joinPath root p)]))
    ∧ (∀ c : String, c ≠ "" → fs.writeFileF (joinPath root p) c = Except.error e →
        FileOperationsTool.execute fs root
          (Json.obj [("operation", Json.str "write"), ("path", Json.str p),
                     ("content", Json.str c)]) =
        (Except.error (if e.code = some "ENOENT"
           then "File or directory not found: " ++ p else e.message),
         [FsOp.writeFileOp (joinPath root p) c]))
    ∧ (fs.readdirF (joinPath root p) = Except.error e →
        FileOperationsTool.execute fs root
          (Json.obj [("operation", Json.str "list"), ("path", Json.str p)]) =
        (Except.error (if e.code = some "ENOENT"
           then "File or directory not found: " ++ p else e.message),
         [FsOp.readdirOp (joinPath root p)]))
    ∧ (fs.statF (joinPath root p) = Except.error e →
        FileOperationsTool.execute fs root
          (Json.obj [("operation", Json.str "info"), ("path", Json.str p)]) =
        (Except.error (if e.code = some "ENOENT"
           then "File or directory not found: " ++ p else e.message),
         [FsOp.statOp (joinPath root p)]))
    ∧ (∀ entry : String, fs.readdirF (joinPath root p) = Except.ok [entry] →
        fs.statF (joinPath (joinPath root p) entry) = Except.error e →
        FileOperationsTool.execute fs root
          (Json.obj [("operation", Json.str "list"), ("path", Json.str p)]) =
        (Except.error (if e.code = some "ENOENT"
           then "File or directory not found: " ++ p else e.message),
         [FsOp.readdirOp (joinPath root p),
          FsOp.statOp (joinPath (joinPath root p) entry)])) := by
  refine ⟨?_, ?_, ?_, ?_, ?_⟩
  · intro hE
    simp [FileOperationsTool.execute, FileOperationsTool.validatePath,
      FileOperationsTool.tryBody, jsGet, assocLookup, jsIsStr, hp1, hp2, hE]
  · intro c hc hE
    have htr : jsTruthyOpt (some (Json.str c)) = true := by
      simp [jsTruthyOpt, jsTruthy, hc]
    simp [FileOperationsTool.execute, FileOperationsTool.validatePath,
      FileOperationsTool.tryBody, jsGet, assocLookup, jsIsStr, hp1, hp2, hE, htr]
  · intro hE
    simp [FileOperationsTool.execute, FileOperationsTool.validatePath,
      FileOperationsTool.tryBody, jsGet, assocLookup, jsIsStr, hp1, hp2, hE]
  · intro hE
    simp [FileOperationsTool.execute, FileOperationsTool.validatePath,
      FileOperationsTool.tryBody, jsGet, assocLookup, jsIsStr, hp1, hp2, hE]
  · intro entry hE1 hE2
    simp [FileOperationsTool.execute, FileOperationsTool.validatePath,
      FileOperationsTool.tryBody, FileOperationsTool.statEntries, jsGet,
      assocLookup, jsIsStr, hp1, hp2, hE1, hE2]

/-- C8 witness: on the sample filesystem a read of a missing file maps
the ENOENT failure to the not-found message carrying the original
path. -/
theorem fileOperations_not_found_mapping_witness :
    strIncludes "missing.txt" ".." = false
    ∧ jsStartsWith "missing.txt" "/" = false
    ∧ FileOperationsTool.execute sampleFs "/workspace"
        (Json.obj [("operation", Json.str "read"), ("path", Json.str "missing.txt")]) =
      (Except.error
        (if ({ code := some "ENOENT",
               message := "ENOENT: no such file or directory" } : IOErr).code
            = some "ENOENT"
         then "File or directory not found: " ++ "missing.txt"
         else ({ code := some "ENOENT",
                 message := "ENOENT: no such file or directory" } : IOErr).message),
       [FsOp.readFileOp (joinPath "/workspace" "missing.txt")]) :=
  ⟨by decide, by decide,
   (fileOperations_not_found_mapping sampleFs "/workspace" "missing.txt"
     { code := some "ENOENT", message := "ENOENT: no such file or directory" }
     (by decide) (by decide)).1 rfl⟩

/-- C4 witness: the divide-by-zero failure at the concrete first operand
five. -/
theorem calculator_divide_by_zero_witness :
    CalculatorTool.execute
      (Json.obj [("operation", Json.str "divide"), ("a", Json.num 5), ("b", Json.num 0)]) =
      Except.error "Division by zero is not allowed"
    ∧ ∀ r : ToolResult, CalculatorTool.execute
        (Json.obj [("operation", Json.str "divide"), ("a", Json.num 5), ("b", Json.num 0)])
        ≠ Except.ok r :=
  calculator_divide_by_zero (Json.num 5)
